import Mathlib

/-!
Verification of the order-sizing and trade-execution core of the
automated crypto-trading loop in this repository (openai_trader.py,
main.py, data_fetcher.py).

Modelling conventions:
* Exchange client calls and json.loads are external collaborators; each
  embedded function takes their possible outcomes as explicit inputs
  (an Option value is none when the call raises an exception).
* Monetary arithmetic is embedded over ℚ, the exact decimal semantics
  the specification mandates for quantities and balances.
* A Python function that catches an exception internally is embedded as
  a total function whose error branch mirrors the except clause; a
  function whose exceptions can propagate is embedded in Except.
-/

/-- Exceptions raised by a Python-level client call (subclasses of
Exception in the source). -/
inductive PyErr
  | clientError
deriving DecidableEq

/-- A client call that either returns a value or raises: none models a
raised exception. -/
def pyCall {α : Type} : Option α → Except PyErr α
  | some a => Except.ok a
  | none => Except.error PyErr.clientError

/-- Rounding to the nearest integer with ties going to the even integer,
the rounding mode of Python's builtin round. -/
def roundHalfEven (x : ℚ) : ℤ :=
  if x - ⌊x⌋ < 1/2 then ⌊x⌋
  else if 1/2 < x - ⌊x⌋ then ⌊x⌋ + 1
  else if ⌊x⌋ % 2 = 0 then ⌊x⌋ else ⌊x⌋ + 1

/-- Python round(x, 8): round half to even at the eighth decimal digit. -/
def round8 (x : ℚ) : ℚ := (roundHalfEven (x * 100000000) : ℚ) / 100000000

/-- The exchange-side data a quantity calculation consults: whether one of
the client calls inside the try block raises, the LOT_SIZE filter
(stepSize, minQty) when the symbol carries one, and the price field of
the ticker when present. -/
structure Market where
  callFails : Bool
  lotFilter : Option (ℚ × ℚ)
  priceField : Option ℚ
deriving DecidableEq

/-- openai_trader.calculate_order_quantity (lines 26-57): spot quantity
purchasable with usdt_amount.  Defaults step_size and min_qty to 1e-6
when no LOT_SIZE filter is found, treats a missing price field as price
0 and returns 0, floors the raw quantity to a multiple of step_size,
returns 0 below min_qty, and finally applies round(quantity, 8).  Any
exception inside the try block yields 0. -/
def calculate_order_quantity (m : Market) (usdt_amount : ℚ) : ℚ :=
  if m.callFails then 0
  else
    let step_size := (m.lotFilter.map Prod.fst).getD (1/1000000)
    let min_qty := (m.lotFilter.map Prod.snd).getD (1/1000000)
    let current_price := m.priceField.getD 0
    if current_price = 0 then 0
    else
      let quantity := usdt_amount / current_price
      let quantity2 := (⌊quantity / step_size⌋ : ℚ) * step_size
      if quantity2 < min_qty then 0
      else round8 quantity2

/-- openai_trader.calculate_futures_quantity (lines 59-100): identical
computation against the futures exchange info and futures ticker. -/
def calculate_futures_quantity (m : Market) (usdt_amount : ℚ) : ℚ :=
  if m.callFails then 0
  else
    let step_size := (m.lotFilter.map Prod.fst).getD (1/1000000)
    let min_qty := (m.lotFilter.map Prod.snd).getD (1/1000000)
    let current_price := m.priceField.getD 0
    if current_price = 0 then 0
    else
      let quantity := usdt_amount / current_price
      let quantity2 := (⌊quantity / step_size⌋ : ℚ) * step_size
      if quantity2 < min_qty then 0
      else round8 quantity2

theorem calc_futures_eq_order (m : Market) (u : ℚ) :
    calculate_futures_quantity m u = calculate_order_quantity m u := rfl

theorem floor_mul_le_self (r s : ℚ) (hs : 0 < s) : (⌊r / s⌋ : ℚ) * s ≤ r := by
  have h1 : ((⌊r / s⌋ : ℚ)) ≤ r / s := Int.floor_le _
  have h2 := mul_le_mul_of_nonneg_right h1 (le_of_lt hs)
  rwa [div_mul_cancel₀ r (ne_of_gt hs)] at h2

theorem round8_fix (m : ℤ) : round8 ((m : ℚ) / 100000000) = (m : ℚ) / 100000000 := by
  have h : ((m : ℚ) / 100000000) * 100000000 = (m : ℚ) := by
    rw [div_mul_cancel₀]
    norm_num
  unfold round8 roundHalfEven
  rw [h, Int.floor_intCast]
  norm_num

theorem calc_order_reduced (usdt price step minq : ℚ) (hprice : price ≠ 0) :
    calculate_order_quantity ⟨false, some (step, minq), some price⟩ usdt
      = if (⌊usdt / price / step⌋ : ℚ) * step < minq then 0
        else round8 ((⌊usdt / price / step⌋ : ℚ) * step) := by
  unfold calculate_order_quantity
  simp [hprice]

/-- Claim C4: for every notional amount and price > 0, if the pre-floor
raw quantity notional/price is below min_qty (and hence also whenever the
floored, quantized quantity is below min_qty), the order-quantity
calculation returns exactly 0. -/
theorem C4_minimum_enforcement (usdt price step minq : ℚ)
    (hprice : 0 < price) (hstep : 0 < step) :
    (usdt / price < minq →
      calculate_order_quantity ⟨false, some (step, minq), some price⟩ usdt = 0) ∧
    ((⌊usdt / price / step⌋ : ℚ) * step < minq →
      calculate_order_quantity ⟨false, some (step, minq), some price⟩ usdt = 0) := by
  have hbranch : (⌊usdt / price / step⌋ : ℚ) * step < minq →
      calculate_order_quantity ⟨false, some (step, minq), some price⟩ usdt = 0 := by
    intro h2
    rw [calc_order_reduced usdt price step minq (ne_of_gt hprice)]
    simp [h2]
  refine ⟨fun hraw => hbranch ?_, hbranch⟩
  exact lt_of_le_of_lt (floor_mul_le_self (usdt / price) step hstep) hraw

/-- Witness for C4, spec scenario 3: notional 1, price 50000, step 0.0001,
min_qty 0.001; the raw quantity 0.00002 is below min_qty. -/
theorem C4_minimum_enforcement_witness :
    0 < (50000 : ℚ) ∧ 0 < (1/10000 : ℚ) ∧
    (((1 : ℚ) / 50000 < 1/1000 →
      calculate_order_quantity ⟨false, some (1/10000, 1/1000), some 50000⟩ 1 = 0) ∧
     ((⌊(1 : ℚ) / 50000 / (1/10000)⌋ : ℚ) * (1/10000) < 1/1000 →
      calculate_order_quantity ⟨false, some (1/10000, 1/1000), some 50000⟩ 1 = 0)) :=
  ⟨by norm_num, by norm_num,
   C4_minimum_enforcement 1 50000 (1/10000) (1/1000) (by norm_num) (by norm_num)⟩

/-- Claim C1 (amended): for every notional > 0, price > 0, and step_size
that is a positive integer multiple of 1e-8 (the eighth-decimal precision
at which the code rounds, satisfied by every Binance step size), the
quantity returned by calculate_order_quantity and by
calculate_futures_quantity is an exact integer multiple of step_size, is
at most notional/price, and its cost quantity * price never exceeds the
notional amount. -/
theorem C1_quantization_law (usdt price step minq : ℚ) (k : ℤ)
    (husdt : 0 < usdt) (hprice : 0 < price) (hk : 0 < k)
    (hstep : step = (k : ℚ) / 100000000) :
    ((∃ m : ℤ, calculate_order_quantity ⟨false, some (step, minq), some price⟩ usdt
        = (m : ℚ) * step)
      ∧ calculate_order_quantity ⟨false, some (step, minq), some price⟩ usdt ≤ usdt / price
      ∧ calculate_order_quantity ⟨false, some (step, minq), some price⟩ usdt * price ≤ usdt)
    ∧ ((∃ m : ℤ, calculate_futures_quantity ⟨false, some (step, minq), some price⟩ usdt
        = (m : ℚ) * step)
      ∧ calculate_futures_quantity ⟨false, some (step, minq), some price⟩ usdt ≤ usdt / price
      ∧ calculate_futures_quantity ⟨false, some (step, minq), some price⟩ usdt * price ≤ usdt) := by
  have hstep_pos : 0 < step := by
    rw [hstep]
    positivity
  have hmain :
      (∃ m : ℤ, calculate_order_quantity ⟨false, some (step, minq), some price⟩ usdt
        = (m : ℚ) * step)
      ∧ calculate_order_quantity ⟨false, some (step, minq), some price⟩ usdt ≤ usdt / price
      ∧ calculate_order_quantity ⟨false, some (step, minq), some price⟩ usdt * price ≤ usdt := by
    rw [calc_order_reduced usdt price step minq (ne_of_gt hprice)]
    by_cases hlt : (⌊usdt / price / step⌋ : ℚ) * step < minq
    · rw [if_pos hlt]
      refine ⟨⟨0, by simp⟩, div_nonneg (le_of_lt husdt) (le_of_lt hprice), ?_⟩
      rw [zero_mul]
      exact le_of_lt husdt
    · rw [if_neg hlt]
      have hint : (⌊usdt / price / step⌋ : ℚ) * step
          = ((⌊usdt / price / step⌋ * k : ℤ) : ℚ) / 100000000 := by
        rw [hstep]
        push_cast
        ring
      have hfix : round8 ((⌊usdt / price / step⌋ : ℚ) * step)
          = (⌊usdt / price / step⌋ : ℚ) * step := by
        rw [hint, round8_fix, ← hint]
      rw [hfix]
      have hle : (⌊usdt / price / step⌋ : ℚ) * step ≤ usdt / price :=
        floor_mul_le_self (usdt / price) step hstep_pos
      refine ⟨⟨⌊usdt / price / step⌋, rfl⟩, hle, ?_⟩
      have := mul_le_mul_of_nonneg_right hle (le_of_lt hprice)
      rwa [div_mul_cancel₀ usdt (ne_of_gt hprice)] at this
  exact ⟨hmain, by rw [calc_futures_eq_order]; exact hmain⟩

/-- Witness for C1, spec scenario 1: notional 100, price 50000, step 1e-6
(so k = 100), min_qty 1e-4. -/
theorem C1_quantization_law_witness :
    0 < (100 : ℚ) ∧ 0 < (50000 : ℚ) ∧ 0 < (100 : ℤ) ∧
    (1/1000000 : ℚ) = ((100 : ℤ) : ℚ) / 100000000 ∧
    (((∃ m : ℤ, calculate_order_quantity ⟨false, some (1/1000000, 1/10000), some 50000⟩ 100
        = (m : ℚ) * (1/1000000))
      ∧ calculate_order_quantity ⟨false, some (1/1000000, 1/10000), some 50000⟩ 100 ≤ 100 / 50000
      ∧ calculate_order_quantity ⟨false, some (1/1000000, 1/10000), some 50000⟩ 100 * 50000 ≤ 100)
    ∧ ((∃ m : ℤ, calculate_futures_quantity ⟨false, some (1/1000000, 1/10000), some 50000⟩ 100
        = (m : ℚ) * (1/1000000))
      ∧ calculate_futures_quantity ⟨false, some (1/1000000, 1/10000), some 50000⟩ 100 ≤ 100 / 50000
      ∧ calculate_futures_quantity ⟨false, some (1/1000000, 1/10000), some 50000⟩ 100 * 50000 ≤ 100)) :=
  ⟨by norm_num, by norm_num, by norm_num, by norm_num,
   C1_quantization_law 100 50000 (1/1000000) (1/10000) 100
     (by norm_num) (by norm_num) (by norm_num) (by norm_num)⟩

/-- Counterexample to C1 as stated: with notional 6e-9, price 1, step_size
1e-9 and min_qty 1e-9 (all positive), the code floors the raw quantity to
6e-9 but then round(quantity, 8) rounds it up to 1e-8, which exceeds
notional/price = 6e-9, so the cost exceeds the notional amount. -/
theorem C1_counterexample :
    0 < (6/1000000000 : ℚ) ∧ 0 < (1 : ℚ) ∧ 0 < (1/1000000000 : ℚ) ∧
    (6/1000000000 : ℚ) / 1 <
      calculate_order_quantity ⟨false, some (1/1000000000, 1/1000000000), some 1⟩
        (6/1000000000) := by
  refine ⟨by norm_num, by norm_num, by norm_num, ?_⟩
  norm_num [calculate_order_quantity, round8, roundHalfEven]

/-- Values produced by Python's json.loads on a successful parse. -/
inductive PyVal
  | str (s : String)
  | num (q : ℚ)
  | bool (b : Bool)
  | null
  | arr (xs : List PyVal)
  | dict (fields : List (String × PyVal))

/-- Python dict.get(key, default): the binding of key (the last one wins,
as in a dict built by json.loads) or the default. -/
def dictGet (fields : List (String × PyVal)) (key : String) (dflt : PyVal) : PyVal :=
  match fields.reverse.find? (fun p => p.1 == key) with
  | some p => p.2
  | none => dflt

/-- Python str.lower(), applied characterwise (the decision strings in
play are ASCII). -/
def pyLower (s : String) : String := String.mk (s.data.map Char.toLower)

/-- main.send_to_openai, lines 62-77: interpretation of the raw AI answer.
json.loads is an external collaborator, so the argument is its outcome:
none when the string is not valid JSON (json.JSONDecodeError, handled with
the fixed reason), some v on success.  Calling .get on a non-dict value or
.lower() on a non-string decision raises, which the broad except clause
turns into the second fixed hold reason. -/
def send_to_openai_parse (parsed : Option PyVal) : String × PyVal :=
  match parsed with
  | none => ("hold", PyVal.str "JSON 파싱 실패")
  | some v =>
    match v with
    | PyVal.dict fields =>
      match dictGet fields "decision" (PyVal.str "hold") with
      | PyVal.str s =>
        (pyLower s, dictGet fields "reason" (PyVal.str "No reason provided."))
      | _ => ("hold", PyVal.str "Error parsing AI response")
    | _ => ("hold", PyVal.str "Error parsing AI response")

/-- openai_trader.get_ai_decision_with_chart, lines 312-321: same parse
with a bare except clause whose fallback reason is the raw answer itself. -/
def get_ai_decision_with_chart_parse (aiAnswer : String) (parsed : Option PyVal) :
    String × PyVal :=
  match parsed with
  | none => ("hold", PyVal.str aiAnswer)
  | some v =>
    match v with
    | PyVal.dict fields =>
      match dictGet fields "decision" (PyVal.str "hold") with
      | PyVal.str s =>
        (pyLower s, dictGet fields "reason" (PyVal.str "No reason provided."))
      | _ => ("hold", PyVal.str aiAnswer)
    | _ => ("hold", PyVal.str aiAnswer)

/-- Counterexample to C2 as stated: the payload with decision "FOO"
(a value outside the five recognized kinds) parses fine, and the
interpreter returns the lowercased string "foo" with the payload's
reason, not the Hold decision. -/
theorem C2_counterexample :
    send_to_openai_parse
        (some (PyVal.dict [("decision", PyVal.str "FOO"), ("reason", PyVal.str "up")]))
      = ("foo", PyVal.str "up") ∧
    ("foo" : String) ≠ "hold" ∧ ("foo" : String) ≠ "long" ∧ ("foo" : String) ≠ "short" ∧
    ("foo" : String) ≠ "buy" ∧ ("foo" : String) ≠ "sell" := by
  refine ⟨rfl, ?_, ?_, ?_, ?_, ?_⟩ <;> decide

/-- Claim C2 (amended): for every raw AI response string that is
unparseable as JSON, send_to_openai returns Hold with the fixed non-empty
reason and get_ai_decision_with_chart returns Hold with the raw answer as
reason; neither raises (the broad except clauses make them total).  A
payload whose decision field normalizes to a value outside the five
recognized kinds is NOT collapsed to Hold here: the lowercased string is
returned as is, and such values are neutralized only downstream by the
hold else-branch of execute_trade. -/
theorem C2_amended_failsafe (parsed : Option PyVal) (aiAnswer : String)
    (h : parsed = none) :
    send_to_openai_parse parsed = ("hold", PyVal.str "JSON 파싱 실패") ∧
    ("JSON 파싱 실패" : String) ≠ "" ∧
    get_ai_decision_with_chart_parse aiAnswer parsed = ("hold", PyVal.str aiAnswer) := by
  subst h
  exact ⟨rfl, by decide, rfl⟩

/-- Witness for C2 (amended) at an unparseable answer. -/
theorem C2_amended_failsafe_witness :
    (none : Option PyVal) = none ∧
    (send_to_openai_parse none = ("hold", PyVal.str "JSON 파싱 실패") ∧
     ("JSON 파싱 실패" : String) ≠ "" ∧
     get_ai_decision_with_chart_parse "not json" none = ("hold", PyVal.str "not json")) :=
  ⟨rfl, C2_amended_failsafe none "not json" rfl⟩

/-- Kinds of exception a margin-type or leverage client call can raise:
the no-op complaint that the setting is already in place, or a genuine
failure. -/
inductive ConfigErr
  | alreadySet
  | invalidSymbol
  | noPermission
deriving DecidableEq

/-- What one run of the configurator did: the warnings logged by the two
except blocks, and the exception it re-raised to the caller, if any. -/
structure ConfigOutcome where
  marginWarning : Option ConfigErr
  leverageWarning : Option ConfigErr
  raisedToCaller : Option ConfigErr
deriving DecidableEq

/-- A configuration client call: err is the exception it raises, if any. -/
def configCall (err : Option ConfigErr) : Except ConfigErr Unit :=
  match err with
  | none => Except.ok ()
  | some e => Except.error e

/-- openai_trader.set_isolated_margin_and_leverage (lines 102-125): each
of futures_change_margin_type and futures_change_leverage sits in its own
try block whose except clause logs a warning and swallows the exception,
whatever the exception was; nothing is ever re-raised. -/
def set_isolated_margin_and_leverage (marginErr levErr : Option ConfigErr) :
    ConfigOutcome :=
  let marginWarning :=
    match configCall marginErr with
    | Except.ok _ => none
    | Except.error e => some e
  let leverageWarning :=
    match configCall levErr with
    | Except.ok _ => none
    | Except.error e => some e
  ⟨marginWarning, leverageWarning, none⟩

/-- Counterexample to C6 as stated: a genuine failure (invalid symbol) is
not surfaced to the caller, and the caller-visible outcome of a genuine
failure is identical to that of the "already isolated" no-op, so the
configurator does not distinguish them. -/
theorem C6_counterexample :
    (set_isolated_margin_and_leverage (some ConfigErr.invalidSymbol) none).raisedToCaller
      = none ∧
    (set_isolated_margin_and_leverage (some ConfigErr.invalidSymbol) none).raisedToCaller
      = (set_isolated_margin_and_leverage (some ConfigErr.alreadySet) none).raisedToCaller :=
  ⟨rfl, rfl⟩

/-- Claim C6 (amended): the margin/leverage configurator treats every
error from the margin-type and leverage calls alike, no-op or genuine: it
logs a warning and surfaces nothing to its caller, which proceeds to the
order attempt regardless. -/
theorem C6_amended_swallows_all (marginErr levErr : Option ConfigErr) :
    (set_isolated_margin_and_leverage marginErr levErr).raisedToCaller = none ∧
    (set_isolated_margin_and_leverage marginErr levErr).marginWarning = marginErr ∧
    (set_isolated_margin_and_leverage marginErr levErr).leverageWarning = levErr := by
  cases marginErr <;> cases levErr <;> exact ⟨rfl, rfl, rfl⟩

/-- data_fetcher.DataFetcher.fetch_balances (lines 170-188): rows are the
(asset, free, locked) entries of client.get_account(), none when that
call raises; assets with positive total balance are kept.  The except
clause returns the empty dict. -/
def fetch_balances (accountRows : Option (List (String × ℚ × ℚ))) :
    List (String × ℚ) :=
  match accountRows with
  | none => []
  | some rows =>
    rows.filterMap (fun r =>
      if 0 < r.2.1 + r.2.2 then some (r.1, r.2.1 + r.2.2) else none)

/-- Counterexample to C7 as stated: when the underlying client call
errors, fetch_balances returns the empty mapping and
calculate_order_quantity returns the zero quantity; neither fails with a
MarketDataUnavailable-style error. -/
theorem C7_counterexample :
    fetch_balances none = [] ∧
    calculate_order_quantity ⟨true, none, none⟩ 100 = 0 :=
  ⟨rfl, rfl⟩

/-- Claim C7 (amended): whenever the exchange cannot return a price or
balance payload, the operations return sentinel defaults instead of
failing: both quantity calculations return 0 (so no order is placed) and
fetch_balances returns the empty mapping; no error reaches the caller. -/
theorem C7_amended_defaults (usdt : ℚ) (lot : Option (ℚ × ℚ)) (p : Option ℚ) :
    calculate_order_quantity ⟨true, lot, p⟩ usdt = 0 ∧
    calculate_futures_quantity ⟨true, lot, p⟩ usdt = 0 ∧
    fetch_balances none = [] :=
  ⟨rfl, rfl, rfl⟩

/-- The observable exchange interactions of one execute_trade call: the
two quantity-calculation helpers and the three order-placement endpoints
(futures_create_order, order_market_buy, order_market_sell).  ok records
whether the placement succeeded; a failed placement is still one issued
order call. -/
inductive Call
  | calcFutures (usdt : ℚ)
  | calcSpot (usdt : ℚ)
  | futuresOrder (side positionSide : String) (qty : ℚ) (ok : Bool)
  | marketBuy (qty : ℚ) (ok : Bool)
  | marketSell (qty : ℚ) (ok : Bool)
deriving DecidableEq

/-- Whether a trace entry is an order-placement call. -/
def isOrderCall : Call → Bool
  | Call.futuresOrder _ _ _ _ => true
  | Call.marketBuy _ _ => true
  | Call.marketSell _ _ => true
  | _ => false

/-- Number of order-placement calls in a trace. -/
def orderCount (trace : List Call) : Nat := (trace.filter isOrderCall).length

/-- The exchange state an execute_trade call can observe: the spot
account rows of get_account (asset, free), none when that call raises;
the spot and futures market data; the wallet balance the futures account
actually holds on the exchange (the code never queries it); the
exceptions of the two configuration calls; and whether each
order-placement endpoint succeeds. -/
structure ExchangeEnv where
  account : Option (List (String × ℚ))
  spot : Market
  fut : Market
  futuresWalletBalance : ℚ
  marginErr : Option ConfigErr
  leverageErr : Option ConfigErr
  futuresOrderOk : Bool
  marketBuyOk : Bool
  marketSellOk : Bool
deriving DecidableEq

/-- Python dict lookup with default 0 on the positive-balance map. -/
def balGet (balances : List (String × ℚ)) (key : String) : ℚ :=
  match balances.find? (fun b => b.1 == key) with
  | some b => b.2
  | none => 0

/-- openai_trader.execute_trade (lines 127-270), the body of its outer
try block.  get_account may raise, which propagates to the outer handler;
the margin/leverage configurator and the quantity calculations swallow
their own errors; each order placement sits in its own try block, so a
failed placement is recorded in the trace but raises nothing.  The
futures notional is the hardcoded 100.0 of line 152.  Branches: long and
short place a futures market order when the computed quantity is
positive; buy requires at least 10 spot USDT and buys with
my_usdt_spot * 0.9995; sell sells the entire spot BTC balance when it is
at least 0.0001; any other decision string is the hold branch. -/
def execute_trade_body (env : ExchangeEnv) (decision reason : String) :
    Except PyErr (List Call) :=
  match pyCall env.account with
  | Except.error e => Except.error e
  | Except.ok account_info =>
    let balances := account_info.filter (fun b => 0 < b.2)
    let my_usdt_spot := balGet balances "USDT"
    let my_usdt_futures : ℚ := 100
    if decision = "long" then
      let _cfg := set_isolated_margin_and_leverage env.marginErr env.leverageErr
      let use_amount := my_usdt_futures
      let qty := calculate_futures_quantity env.fut use_amount
      if 0 < qty then
        Except.ok [Call.calcFutures use_amount,
                   Call.futuresOrder "BUY" "LONG" qty env.futuresOrderOk]
      else
        Except.ok [Call.calcFutures use_amount]
    else if decision = "short" then
      let _cfg := set_isolated_margin_and_leverage env.marginErr env.leverageErr
      let use_amount := my_usdt_futures
      let qty := calculate_futures_quantity env.fut use_amount
      if 0 < qty then
        Except.ok [Call.calcFutures use_amount,
                   Call.futuresOrder "SELL" "SHORT" qty env.futuresOrderOk]
      else
        Except.ok [Call.calcFutures use_amount]
    else if decision = "buy" then
      if 10 ≤ my_usdt_spot then
        let qty := calculate_order_quantity env.spot (my_usdt_spot * (9995/10000))
        if 0 < qty then
          Except.ok [Call.calcSpot (my_usdt_spot * (9995/10000)),
                     Call.marketBuy qty env.marketBuyOk]
        else
          Except.ok [Call.calcSpot (my_usdt_spot * (9995/10000))]
      else
        Except.ok []
    else if decision = "sell" then
      let my_btc_spot := balGet balances "BTC"
      if 1/10000 ≤ my_btc_spot then
        Except.ok [Call.marketSell my_btc_spot env.marketSellOk]
      else
        Except.ok []
    else
      Except.ok []

/-- execute_trade with its outer try/except Exception handler (lines
268-270): a propagated exception is logged and swallowed, and the
function returns normally with no order placed. -/
def execute_trade_result (env : ExchangeEnv) (decision reason : String) :
    Except PyErr (List Call) :=
  match execute_trade_body env decision reason with
  | Except.ok t => Except.ok t
  | Except.error _ => Except.ok []

/-- The exchange interactions one execute_trade call performs. -/
def execute_trade (env : ExchangeEnv) (decision reason : String) : List Call :=
  match execute_trade_result env decision reason with
  | Except.ok t => t
  | Except.error _ => []

/-- Claim C5: for every fixed decision and reason and every exchange
behavior, a single execute_trade call issues at most one order-placement
call (futures_create_order, order_market_buy, or order_market_sell); in
particular a failed placement is never retried within the cycle. -/
theorem C5_at_most_one_order (env : ExchangeEnv) (decision reason : String) :
    orderCount (execute_trade env decision reason) ≤ 1 := by
  unfold execute_trade execute_trade_result execute_trade_body
  cases env.account with
  | none => simp [pyCall, orderCount]
  | some rows =>
    simp only [pyCall]
    split_ifs <;> simp [orderCount, isOrderCall]

/-- Claim C9: for every decision string, reason string and exchange
behavior (including any client call raising), execute_trade returns
normally: the outer except handler catches every exception arising in the
body, so no exception propagates to the caller. -/
theorem C9_never_propagates (env : ExchangeEnv) (decision reason : String) :
    ∃ t, execute_trade_result env decision reason = Except.ok t := by
  unfold execute_trade_result
  cases h : execute_trade_body env decision reason with
  | ok t => exact ⟨t, rfl⟩
  | error e => exact ⟨[], rfl⟩

/-- Claim C10: execute_trade dispatches by exact lowercase string
comparison: for every decision string other than exactly "long", "short",
"buy" or "sell" - including case variants such as "BUY" or "Long" - it
takes the hold branch and performs no exchange interaction at all. -/
theorem C10_exact_lowercase_dispatch (env : ExchangeEnv) (decision reason : String)
    (h : ¬(decision = "long" ∨ decision = "short" ∨ decision = "buy" ∨ decision = "sell")) :
    execute_trade env decision reason = [] := by
  push_neg at h
  obtain ⟨h1, h2, h3, h4⟩ := h
  unfold execute_trade execute_trade_result execute_trade_body
  cases env.account <;> simp [pyCall, h1, h2, h3, h4]

/-- Claim C3 (amended): in every execute_trade run, the notional amount
passed to the futures quantity calculation is the hardcoded constant
100.0 USDT of line 152; the futures wallet balance is never read from the
exchange. -/
theorem C3_futures_notional_hardcoded (env : ExchangeEnv) (decision reason : String)
    (a : ℚ) (h : Call.calcFutures a ∈ execute_trade env decision reason) : a = 100 := by
  unfold execute_trade execute_trade_result execute_trade_body at h
  cases haccount : env.account with
  | none => simp [haccount, pyCall] at h
  | some rows =>
    rw [haccount] at h
    simp only [pyCall] at h
    split_ifs at h <;> simp at h <;> simp_all

/-- A concrete exchange state for claim C3: the exchange-side futures
wallet holds 5 USDT, both markets quote price 50000 with step and
min_qty 1e-6, and get_account succeeds. -/
def envC3 : ExchangeEnv :=
  ⟨some [], ⟨false, some (1/1000000, 1/1000000), some 50000⟩,
   ⟨false, some (1/1000000, 1/1000000), some 50000⟩, 5, none, none, true, true, true⟩

/-- Witness for C3 (amended): in envC3 a long decision does pass 100 to
the futures quantity calculation. -/
theorem C3_futures_notional_hardcoded_witness :
    Call.calcFutures 100 ∈ execute_trade envC3 "long" "r" ∧ (100 : ℚ) = 100 :=
  ⟨by norm_num [execute_trade, execute_trade_result, execute_trade_body, envC3, pyCall,
      calculate_futures_quantity, round8, roundHalfEven],
   C3_futures_notional_hardcoded envC3 "long" "r" 100
     (by norm_num [execute_trade, execute_trade_result, execute_trade_body, envC3, pyCall,
        calculate_futures_quantity, round8, roundHalfEven])⟩

/-- Counterexample to C3 as stated: with the exchange-side futures wallet
balance at 5 USDT, the long branch still passes 100 to the futures
quantity calculation and never passes the wallet balance. -/
theorem C3_counterexample :
    envC3.futuresWalletBalance = 5 ∧
    Call.calcFutures 100 ∈ execute_trade envC3 "long" "r" ∧
    Call.calcFutures envC3.futuresWalletBalance ∉ execute_trade envC3 "long" "r" := by
  refine ⟨rfl, ?_, ?_⟩
  · norm_num [execute_trade, execute_trade_result, execute_trade_body, envC3, pyCall,
      calculate_futures_quantity, round8, roundHalfEven]
  · intro hmem
    norm_num [execute_trade, execute_trade_result, execute_trade_body, envC3, pyCall,
      calculate_futures_quantity, round8, roundHalfEven] at hmem
    exact Call.noConfusion hmem

/-- A concrete exchange state for claim C10: the spot account holds 100
USDT and 1 BTC, so a lowercase buy or sell decision would place an order. -/
def envC10 : ExchangeEnv :=
  ⟨some [("USDT", 100), ("BTC", 1)], ⟨false, some (1/1000000, 1/1000000), some 50000⟩,
   ⟨false, some (1/1000000, 1/1000000), some 50000⟩, 100, none, none, true, true, true⟩

/-- Witness for C10: the uppercase decision "BUY" falls through to the
hold branch even though the account could buy, so no exchange
interaction happens. -/
theorem C10_exact_lowercase_dispatch_witness :
    (¬("BUY" = "long" ∨ "BUY" = "short" ∨ "BUY" = "buy" ∨ "BUY" = "sell")) ∧
    execute_trade envC10 "BUY" "r" = [] :=
  ⟨by decide, C10_exact_lowercase_dispatch envC10 "BUY" "r" (by decide)⟩

/-- What one iteration of the main_loop body raises, as seen at the loop
boundary: ok when the cycle (data fetch, preprocessing, AI call, trade
execution, sleep) completes, err when it raises an Exception, interrupt
when a KeyboardInterrupt arrives. -/
inductive CycleEvent
  | ok
  | err
  | interrupt
deriving DecidableEq

/-- main.main_loop (lines 88-120), run against a finite prefix of cycle
outcomes supplied by the environment: returns how many cycles the loop
entered and whether it terminated within the prefix.  The except
KeyboardInterrupt clause breaks the while True loop; the except Exception
clause logs, sleeps and falls through to the next iteration. -/
def main_loop_trace : List CycleEvent → Nat × Bool
  | [] => (0, false)
  | e :: rest =>
    match e with
    | CycleEvent.interrupt => (1, true)
    | CycleEvent.ok => ((main_loop_trace rest).1 + 1, (main_loop_trace rest).2)
    | CycleEvent.err => ((main_loop_trace rest).1 + 1, (main_loop_trace rest).2)

/-- Claim C8: every exception raised inside one cycle of the scheduler
loop is caught at the cycle boundary and the loop proceeds to the next
sleep-and-retry cycle; the loop terminates exactly when an explicit
KeyboardInterrupt occurs, never because of an internal exception. -/
theorem C8_loop_containment (events : List CycleEvent) :
    ((main_loop_trace events).2 = true ↔ CycleEvent.interrupt ∈ events) ∧
    main_loop_trace (CycleEvent.err :: events)
      = ((main_loop_trace events).1 + 1, (main_loop_trace events).2) := by
  refine ⟨?_, rfl⟩
  induction events with
  | nil => simp [main_loop_trace]
  | cons e rest ih =>
    cases e <;> simp [main_loop_trace, ih]
